import Mathlib

/-!
# Verification of the subscription/credit ledger reconciliation logic

Shallow embedding of the Stripe webhook reconciliation handlers of the
Fitzgerald-HR-Ai repository.  The authoritative variant embedded here is the
annual-cycle-aware webhook handler (the second source unit inside
`src/netlify/functions/deputy-auth.js`, lines 162-1138), whose Firebase
operations (`addPurchasedCredits`, `logTransaction`, `activateSubscription`,
`addSubscriptionCredits`, `downgradeToFree`) are byte-identical to the ones in
`src/netlify/functions/stripe-webhook.js` except that `activateSubscription`
additionally records the billing cycle.

Modelling conventions:
* The Firestore user document is a record of optional fields; `none` models an
  absent field or an explicit `null`/`undefined` value (no code path in the
  handlers distinguishes the two).
* `set(..., { merge: true })` on the nested `credits` map is modelled as a
  record update that assigns exactly the fields the source writes and leaves
  every other field untouched; spreads like `...currentCredits` have the same
  effect and are modelled the same way.
* `FieldValue.serverTimestamp()` and `new Date().toISOString()` are modelled by
  an explicit `now : Nat` parameter threaded into every routine.
* `FieldValue.arrayUnion(x)` appends `x` to the stored array unless an equal
  element is already present (Firestore array-union semantics).
* `FieldValue.increment(0)` is modelled as writing the current value (0 when
  the field is absent), which is its observable effect.
* External Stripe lookups (`subscriptions.retrieve`, `prices.retrieve`) are
  modelled as `Option`-valued inputs to the routines: `none` is a failed or
  skipped lookup (the surrounding `try`/`catch` swallows the error), `some` is
  the fetched object.  The `stripe.subscriptions.update` metadata write-back is
  a side effect on Stripe, not on the datastore, and is therefore not part of
  the store transition.
-/

/-- JavaScript truthiness of an optional string: `undefined`, `null` and the
empty string are falsy. -/
def strTruthy : Option String → Bool
  | some s => s ≠ ""
  | none => false

/-- `a || dflt` for an optional string, as used for metadata defaults. -/
def jsOr (a : Option String) (dflt : String) : String :=
  match a with
  | some s => if s = "" then dflt else s
  | none => dflt

/-- The guard `!userId || userId === 'anonymous'` (negated): a user id is
valid when it is present, non-empty and not the anonymous sentinel. -/
def validUserId : Option String → Bool
  | some s => s ≠ "" && s ≠ "anonymous"
  | none => false

/-- `x ? new Date(x * 1000).toISOString() : null` applied to an optional Unix
timestamp: `0` is falsy in JavaScript, so it also maps to `null`. -/
def optTs : Option Nat → Option Nat
  | some n => if n = 0 then none else some n
  | none => none

/-- `s.includes(pat)` for a non-empty pattern. -/
def strIncludes (s pat : String) : Bool := (s.splitOn pat).length > 1

/-- `TIER_CREDITS` (deputy-auth.js lines 218-224 and stripe-webhook.js lines
41-46): monthly credit amounts by tier. -/
def TIER_CREDITS : String → Option Nat
  | "starter" => some 8
  | "pro" => some 20
  | "business" => some 50
  | "free" => some 0
  | _ => none

/-- `TIER_CREDITS_ANNUAL` (deputy-auth.js lines 227-231): annual credit
amounts (monthly × 12). -/
def TIER_CREDITS_ANNUAL : String → Option Nat
  | "starter" => some 96
  | "pro" => some 240
  | "business" => some 600
  | _ => none

/-- `REVIEW_CREDIT_AMOUNTS` (oauth-exchange.js lines 219-236): the credit
table keyed by product key used when building checkout sessions. -/
def REVIEW_CREDIT_AMOUNTS : String → Option Nat
  | "starter_monthly" => some 8
  | "pro_monthly" => some 20
  | "business_monthly" => some 50
  | "starter_annual" => some 96
  | "pro_annual" => some 240
  | "business_annual" => some 600
  | "credits_1" => some 1
  | "credits_5" => some 5
  | "consultation" => some 0
  | _ => none

/-- `TIER_CREDITS[t] || 0` for a tier that may be `undefined`. -/
def lookupTierOpt (tbl : String → Option Nat) (t : Option String) : Nat :=
  (t.bind tbl).getD 0

/-- `TIER_CREDITS[t] || 0` for a tier known to be a string. -/
def lookupTierS (tbl : String → Option Nat) (t : String) : Nat :=
  (tbl t).getD 0

/-- One entry of the `transactions` array-union audit trail.  Each handler
writes only a subset of these fields; absent fields are `none`. -/
structure Txn where
  type : String
  tier : Option String := none
  billingCycle : Option String := none
  credits : Option Nat := none
  fromTier : Option String := none
  fromBillingCycle : Option String := none
  toTier : Option String := none
  toBillingCycle : Option String := none
  oldCredits : Option Nat := none
  newCredits : Option Nat := none
  product : Option String := none
  transactionId : Option String := none
  timestamp : Nat := 0
  deriving Repr, DecidableEq

/-- The nested `credits` map of a user document. -/
structure CreditsMap where
  subscriptionTier : Option String := none
  tier : Option String := none
  billingCycle : Option String := none
  reviewCredits : Option Nat := none
  reviewCreditsUsed : Option Nat := none
  purchasedCredits : Option Nat := none
  bonusPrompts : Option Nat := none
  monthlyPromptsUsed : Option Nat := none
  lowRiskDocsUsed : Option Nat := none
  stripeCustomerId : Option String := none
  stripeSubscriptionId : Option String := none
  subscriptionStatus : Option String := none
  cancelAtPeriodEnd : Option Bool := none
  subscriptionPeriodEnd : Option Nat := none
  paymentFailedAt : Option Nat := none
  subscriptionStarted : Option Nat := none
  subscriptionEnded : Option Nat := none
  lastCreditRefresh : Option Nat := none
  lastPlanChange : Option Nat := none
  lastTransaction : Option String := none
  lastUpdated : Option Nat := none
  deriving Repr, DecidableEq

/-- A user document in the `users` collection: the top-level
`stripeCustomerId`, the nested `credits` map and the `transactions` array. -/
structure UserDoc where
  stripeCustomerId : Option String := none
  credits : CreditsMap := {}
  transactions : List Txn := []
  deriving Repr, DecidableEq

/-- The `users` collection, keyed by user id; `none` is a missing document
(`doc.exists` false). -/
abbrev Store := String → Option UserDoc

/-- Firestore `FieldValue.arrayUnion`: append unless an equal element is
already in the array. -/
def arrayUnion (l : List Txn) (t : Txn) : List Txn :=
  if t ∈ l then l else l ++ [t]

/-- A merged `userRef.set(..., { merge: true })`: replace the document at
`uid` by `f` applied to the current document (`{}` when the document does not
exist, matching `doc.exists ? doc.data() : {}` together with the per-field
defaults). -/
def updateStore (uid : String) (f : UserDoc → UserDoc) (store : Store) : Store :=
  fun k => if k = uid then some (f ((store uid).getD {})) else store k

/-- `currentCredits.subscriptionTier || currentCredits.tier || 'free'`. -/
def currentTierOf (c : CreditsMap) : String :=
  jsOr c.subscriptionTier (jsOr c.tier "free")

/-- `currentCredits.billingCycle || 'monthly'`. -/
def currentCycleOf (c : CreditsMap) : String :=
  jsOr c.billingCycle "monthly"

/-- `addPurchasedCredits` (deputy-auth.js lines 944-985, identical in
stripe-webhook.js lines 356-397): a Firestore `runTransaction` that adds the
pack size to the current `purchasedCredits`, records the transaction id, and
appends a `credit_pack` audit entry; the customer id is saved only when
truthy. -/
def addPurchasedCredits (now : Nat) (credits : Nat) (transactionId : String)
    (productName : Option String) (stripeCustomerId : Option String)
    (doc : UserDoc) : UserDoc :=
  let base : UserDoc :=
    { doc with
      credits := { doc.credits with
        purchasedCredits := some (doc.credits.purchasedCredits.getD 0 + credits),
        lastTransaction := some transactionId,
        lastUpdated := some now },
      transactions := arrayUnion doc.transactions
        { type := "credit_pack", credits := some credits, product := productName,
          transactionId := some transactionId, timestamp := now } }
  if strTruthy stripeCustomerId then
    { base with
      stripeCustomerId := stripeCustomerId,
      credits := { base.credits with stripeCustomerId := stripeCustomerId } }
  else base

/-- `logTransaction` (deputy-auth.js lines 987-1011): append a log-only audit
entry; the customer id is saved only when truthy. -/
def logTransaction (now : Nat) (type : String) (transactionId : String)
    (stripeCustomerId : Option String) (doc : UserDoc) : UserDoc :=
  let base : UserDoc :=
    { doc with
      transactions := arrayUnion doc.transactions
        { type := type, transactionId := some transactionId, timestamp := now } }
  if strTruthy stripeCustomerId then { base with stripeCustomerId := stripeCustomerId }
  else base

/-- `activateSubscription` (deputy-auth.js lines 1013-1061; the
stripe-webhook.js variant at lines 425-471 is the same write minus the
`billingCycle` fields): overwrite the subscription fields of the `credits`
map with the computed grant and append a `subscription_started` audit
entry. -/
def activateSubscription (now : Nat) (tier : Option String) (credits : Nat)
    (stripeCustomerId : Option String) (transactionId : String)
    (periodEnd : Option Nat) (subscriptionId : Option String)
    (billingCycle : String) (doc : UserDoc) : UserDoc :=
  { doc with
    stripeCustomerId := stripeCustomerId,
    credits := { doc.credits with
      subscriptionTier := tier,
      tier := tier,
      billingCycle := some billingCycle,
      reviewCredits := some credits,
      reviewCreditsUsed := some 0,
      purchasedCredits := some (doc.credits.purchasedCredits.getD 0),
      bonusPrompts := some (doc.credits.bonusPrompts.getD 0),
      monthlyPromptsUsed := some 0,
      lowRiskDocsUsed := some 0,
      stripeCustomerId := stripeCustomerId,
      stripeSubscriptionId := subscriptionId,
      subscriptionStatus := some "active",
      cancelAtPeriodEnd := some false,
      subscriptionPeriodEnd := optTs periodEnd,
      subscriptionStarted := some now,
      lastCreditRefresh := some now,
      lastTransaction := some transactionId,
      lastUpdated := some now },
    transactions := arrayUnion doc.transactions
      { type := "subscription_started", tier := tier,
        billingCycle := some billingCycle, credits := some credits,
        transactionId := some transactionId, timestamp := now } }

/-- `addSubscriptionCredits` (deputy-auth.js lines 1063-1098): the renewal
write — overwrite `reviewCredits` with the recomputed grant, reset usage,
force the status back to `active` and append a `subscription_renewal` audit
entry. -/
def addSubscriptionCredits (now : Nat) (credits : Nat) (transactionId : String)
    (periodEnd : Option Nat) (doc : UserDoc) : UserDoc :=
  { doc with
    credits := { doc.credits with
      reviewCredits := some credits,
      reviewCreditsUsed := some 0,
      subscriptionStatus := some "active",
      cancelAtPeriodEnd := some false,
      subscriptionPeriodEnd := optTs periodEnd,
      lastCreditRefresh := some now,
      lastTransaction := some transactionId,
      lastUpdated := some now },
    transactions := arrayUnion doc.transactions
      { type := "subscription_renewal", credits := some credits,
        transactionId := some transactionId, timestamp := now } }

/-- `downgradeToFree` (deputy-auth.js lines 1100-1138, identical in
stripe-webhook.js lines 510-548): terminal cancellation — zero the review
credits, drop to the free tier, clear the subscription id (the customer id is
deliberately kept, see the source comment), and append a
`subscription_cancelled` audit entry. -/
def downgradeToFree (now : Nat) (transactionId : String) (doc : UserDoc) : UserDoc :=
  { doc with
    credits := { doc.credits with
      subscriptionTier := some "free",
      tier := some "free",
      reviewCredits := some 0,
      reviewCreditsUsed := some 0,
      stripeSubscriptionId := none,
      subscriptionStatus := some "canceled",
      cancelAtPeriodEnd := some false,
      subscriptionPeriodEnd := none,
      subscriptionEnded := some now,
      lastTransaction := some transactionId,
      lastUpdated := some now },
    transactions := arrayUnion doc.transactions
      { type := "subscription_cancelled", transactionId := some transactionId,
        timestamp := now } }

/-- The relevant parts of a Stripe price object as retrievable via
`stripe.prices.retrieve(priceId, { expand: ['product'] })`. -/
structure Price where
  id : String := ""
  interval : Option String := none
  unit_amount : Option Nat := none
  tierMeta : Option String := none
  productTierMeta : Option String := none
  deriving Repr, DecidableEq

/-- The relevant parts of a Stripe subscription object.  `itemPrice` is
`subscription.items.data[0].price` when the item list is non-empty. -/
structure Subscription where
  id : String := ""
  status : String := ""
  cancel_at_period_end : Bool := false
  current_period_end : Option Nat := none
  customer : Option String := none
  created : Nat := 0
  metaUserId : Option String := none
  metaTier : Option String := none
  metaBillingCycle : Option String := none
  itemPrice : Option Price := none
  deriving Repr, DecidableEq

/-- The relevant parts of a Stripe checkout session object. -/
structure Session where
  id : String := ""
  customer : Option String := none
  subscription : Option String := none
  metaUserId : Option String := none
  metaProductType : Option String := none
  metaTier : Option String := none
  metaReviewCredits : Option Nat := none
  metaProductKey : Option String := none
  deriving Repr, DecidableEq

/-- The relevant parts of a Stripe invoice object. -/
structure Invoice where
  id : String := ""
  billing_reason : Option String := none
  subscriptionId : Option String := none
  deriving Repr, DecidableEq

/-- Tier detection from the fetched price (deputy-auth.js lines 602-629):
explicit price metadata tier, else product metadata tier, else the exact
price-amount fallback table; when nothing matches, the previously known tier
is retained. -/
def detectTier (tier0 : Option String) (p : Price) : Option String :=
  if strTruthy p.tierMeta then p.tierMeta
  else if strTruthy p.productTierMeta then p.productTierMeta
  else
    match p.interval, p.unit_amount with
    | some "year", some 24900 => some "starter"
    | some "year", some 44900 => some "pro"
    | some "year", some 89900 => some "business"
    | some "month", some 2900 => some "starter"
    | some "month", some 4900 => some "pro"
    | some "month", some 9900 => some "business"
    | _, _ => tier0

/-- Billing-cycle detection from the fetched price interval (deputy-auth.js
lines 593-599): `year` maps to `annual`, `month` to `monthly`, anything else
keeps the previously known cycle. -/
def detectCycle (cycle0 : String) (p : Price) : String :=
  match p.interval with
  | some "year" => "annual"
  | some "month" => "monthly"
  | _ => cycle0

/-- The whole detection block of `handleSubscriptionUpdated` (deputy-auth.js
lines 585-647): when a price was fetched for the first subscription item,
detect tier and cycle from it and adopt them when either differs from the
cached metadata; when there is no item or the lookup failed (the `catch`
path), the cached metadata values stand. -/
def resolvePlan (tier0 : Option String) (cycle0 : String) (fetched : Option Price) :
    Option String × String :=
  match fetched with
  | none => (tier0, cycle0)
  | some p =>
    let dTier := detectTier tier0 p
    let dCycle := detectCycle cycle0 p
    if (strTruthy dTier = true ∧ dTier ≠ tier0) ∨ (dCycle ≠ "" ∧ dCycle ≠ cycle0) then
      ((if strTruthy dTier then dTier else tier0), dCycle)
    else (tier0, cycle0)

/-- The audit entry written by the plan-switch branch of
`handleSubscriptionUpdated` (deputy-auth.js lines 708-717). -/
def planSwitchTxn (now : Nat) (isUpgrade : Bool) (currentTier currentCycle : String)
    (tier : Option String) (billingCycle : String) (oldCredits newCredits : Nat) : Txn :=
  { type := if isUpgrade then "plan_upgrade" else "plan_downgrade",
    fromTier := some currentTier,
    fromBillingCycle := some currentCycle,
    toTier := tier,
    toBillingCycle := some billingCycle,
    oldCredits := some oldCredits,
    newCredits := some newCredits,
    timestamp := now }

/-- The plan-switch branch condition of `handleSubscriptionUpdated`
(deputy-auth.js lines 652-672): the subscription is active and not scheduled
for cancellation, and the detected tier or billing cycle differs from the
stored one while the stored tier is not `free` — the source's
`tierChanged || billingCycleChanged` guard with `tier`/`billingCycle` the
already-resolved plan and `doc` the current user document. -/
def planSwitchGuard (sub : Subscription) (tier : Option String) (billingCycle : String)
    (doc : UserDoc) : Prop :=
  sub.status = "active" ∧ sub.cancel_at_period_end = false ∧
    ((strTruthy tier = true ∧ currentTierOf doc.credits ≠ tier.getD "" ∧
        currentTierOf doc.credits ≠ "free") ∨
      (billingCycle ≠ "" ∧ currentCycleOf doc.credits ≠ billingCycle ∧
        currentTierOf doc.credits ≠ "free"))

instance (sub : Subscription) (tier : Option String) (billingCycle : String) (doc : UserDoc) :
    Decidable (planSwitchGuard sub tier billingCycle doc) := by
  unfold planSwitchGuard
  infer_instance

/-- `handleSubscriptionUpdated` (deputy-auth.js lines 563-806).  `fetched` is
the price retrieved for the subscription's first item (`none` when the item
list is empty or the lookup threw).  Branch order follows the source: plan
switch (only while `active` and not scheduled for cancellation), scheduled
cancellation, reactivation, `past_due`/`unpaid` status tracking. -/
def handleSubscriptionUpdated (now : Nat) (sub : Subscription) (fetched : Option Price)
    (store : Store) : Store :=
  if validUserId sub.metaUserId then
    let uid := sub.metaUserId.getD ""
    let cycle0 := jsOr sub.metaBillingCycle "monthly"
    let resolved := resolvePlan sub.metaTier cycle0 fetched
    let tier := resolved.1
    let billingCycle := resolved.2
    let doc := (store uid).getD {}
    let currentTier := currentTierOf doc.credits
    let currentCycle := currentCycleOf doc.credits
    if planSwitchGuard sub tier billingCycle doc then
      let newCredits :=
        if billingCycle = "annual" then lookupTierOpt TIER_CREDITS_ANNUAL tier
        else lookupTierOpt TIER_CREDITS tier
      let oldCredits :=
        if currentCycle = "annual" then lookupTierS TIER_CREDITS_ANNUAL currentTier
        else lookupTierS TIER_CREDITS currentTier
      let isUpgrade := decide (oldCredits < newCredits)
      updateStore uid (fun d =>
        { d with
          credits := { d.credits with
            subscriptionTier := tier,
            tier := tier,
            billingCycle := some billingCycle,
            reviewCredits := some newCredits,
            reviewCreditsUsed := some 0,
            subscriptionStatus := some "active",
            cancelAtPeriodEnd := some false,
            subscriptionPeriodEnd := optTs sub.current_period_end,
            lastPlanChange := some now,
            lastUpdated := some now },
          transactions := arrayUnion d.transactions
            (planSwitchTxn now isUpgrade currentTier currentCycle tier billingCycle
              oldCredits newCredits) }) store
    else if sub.cancel_at_period_end = true then
      updateStore uid (fun d =>
        { d with credits := { d.credits with
            cancelAtPeriodEnd := some true,
            subscriptionStatus := some "canceling",
            subscriptionPeriodEnd := optTs sub.current_period_end,
            lastUpdated := some now } }) store
    else if sub.cancel_at_period_end = false ∧ sub.status = "active" ∧
        doc.credits.cancelAtPeriodEnd = some true then
      updateStore uid (fun d =>
        { d with credits := { d.credits with
            cancelAtPeriodEnd := some false,
            subscriptionStatus := some "active",
            subscriptionPeriodEnd := optTs sub.current_period_end,
            lastUpdated := some now } }) store
    else if sub.status = "past_due" ∨ sub.status = "unpaid" then
      updateStore uid (fun d =>
        { d with credits := { d.credits with
            subscriptionStatus := some sub.status,
            lastUpdated := some now } }) store
    else store
  else store

/-- `handleSubscriptionCancelled` (deputy-auth.js lines 494-561).  The
cancellation-email block only calls external collaborators and is not part of
the datastore transition; the store changes only when the metadata user id is
valid. -/
def handleSubscriptionCancelled (now : Nat) (sub : Subscription) (store : Store) : Store :=
  if validUserId sub.metaUserId then
    updateStore (sub.metaUserId.getD "") (downgradeToFree now sub.id) store
  else store

/-- `handlePaymentFailed` (deputy-auth.js lines 462-492, identical in
stripe-webhook.js lines 240-270): mark the user `past_due`; no credit change
and no audit entry.  `subLookup` is the retrieved subscription (`none` when
the lookup threw). -/
def handlePaymentFailed (now : Nat) (invoice : Invoice) (subLookup : Option Subscription)
    (store : Store) : Store :=
  if strTruthy invoice.subscriptionId then
    match subLookup with
    | none => store
    | some sub =>
      if validUserId sub.metaUserId then
        updateStore (sub.metaUserId.getD "") (fun d =>
          { d with credits := { d.credits with
              subscriptionStatus := some "past_due",
              paymentFailedAt := some now,
              lastUpdated := some now } }) store
      else store
  else store

/-- The renewal grant computed by `handleInvoicePaid` (deputy-auth.js lines
449-453) from the subscription's cached metadata: annual cycles use the
annual table, everything else the monthly table. -/
def renewalCredits (sub : Subscription) : Nat :=
  if jsOr sub.metaBillingCycle "monthly" = "annual" then
    lookupTierOpt TIER_CREDITS_ANNUAL sub.metaTier
  else lookupTierOpt TIER_CREDITS sub.metaTier

/-- `handleInvoicePaid` (deputy-auth.js lines 427-460): skip initial
(`subscription_create`) invoices, resolve the user from the retrieved
subscription's metadata, and apply the renewal write when the computed grant
is positive. -/
def handleInvoicePaid (now : Nat) (invoice : Invoice) (subLookup : Option Subscription)
    (store : Store) : Store :=
  if invoice.billing_reason = some "subscription_create" then store
  else if strTruthy invoice.subscriptionId then
    match subLookup with
    | none => store
    | some sub =>
      if validUserId sub.metaUserId then
        let credits := renewalCredits sub
        if 0 < credits then
          updateStore (sub.metaUserId.getD "")
            (addSubscriptionCredits now credits invoice.id sub.current_period_end) store
        else store
      else store
  else store

/-- The billing-cycle and subscription details computed by the subscription
branch of `handleCheckoutComplete` (deputy-auth.js lines 366-400): the cycle
defaults to monthly, is switched to annual when the product key contains
`annual`, and is double-checked against the interval of the retrieved
subscription's first item price; the period end and subscription id come from
the retrieved subscription and stay `null` when the lookup threw. -/
def checkoutSubInfo (s : Session) (subLookup : Option Subscription) :
    Option Nat × Option String × String :=
  let cycle0 :=
    if strTruthy s.metaProductKey ∧ strIncludes (s.metaProductKey.getD "") "annual" = true
    then "annual" else "monthly"
  if strTruthy s.subscription then
    match subLookup with
    | some sub =>
      let bc :=
        match sub.itemPrice with
        | some p =>
          match p.interval with
          | some "year" => "annual"
          | some "month" => "monthly"
          | _ => cycle0
        | none => cycle0
      (sub.current_period_end, some sub.id, bc)
    | none => (none, none, cycle0)
  else (none, none, cycle0)

/-- `handleCheckoutComplete` (deputy-auth.js lines 342-425): dispatch on the
session metadata product type — subscription activation, credit-pack
purchase, or consultation logging; sessions without a valid user id are
ignored silently. -/
def handleCheckoutComplete (now : Nat) (s : Session) (subLookup : Option Subscription)
    (store : Store) : Store :=
  if validUserId s.metaUserId then
    let uid := s.metaUserId.getD ""
    let reviewCredits := s.metaReviewCredits.getD 0
    if s.metaProductType = some "subscription" then
      let info := checkoutSubInfo s subLookup
      let credits :=
        if info.2.2 = "annual" then lookupTierOpt TIER_CREDITS_ANNUAL s.metaTier
        else lookupTierOpt TIER_CREDITS s.metaTier
      updateStore uid
        (activateSubscription now s.metaTier credits s.customer s.id info.1 info.2.1 info.2.2)
        store
    else if s.metaProductType = some "reviewCredits" then
      updateStore uid (addPurchasedCredits now reviewCredits s.id s.metaProductKey s.customer)
        store
    else if s.metaProductType = some "consultation" then
      updateStore uid (logTransaction now "consultation" s.id s.customer) store
    else store
  else store

/-- A decoded webhook event envelope together with the outcomes of the
external Stripe lookups the dispatched routine performs. -/
inductive StripeEvent where
  | checkoutCompleted (s : Session) (subLookup : Option Subscription)
  | invoicePaid (invoice : Invoice) (subLookup : Option Subscription)
  | paymentFailed (invoice : Invoice) (subLookup : Option Subscription)
  | subscriptionDeleted (sub : Subscription)
  | subscriptionUpdated (sub : Subscription) (fetchedPrice : Option Price)
  | other (type : String)
  deriving Repr, DecidableEq

/-- The switch statement of the webhook handler (deputy-auth.js lines
277-326): dispatch the decoded event to its reconciliation routine; unknown
event types are a logged no-op. -/
def processEvent (now : Nat) (ev : StripeEvent) (store : Store) : Store :=
  match ev with
  | .checkoutCompleted s subLookup => handleCheckoutComplete now s subLookup store
  | .invoicePaid invoice subLookup => handleInvoicePaid now invoice subLookup store
  | .paymentFailed invoice subLookup => handlePaymentFailed now invoice subLookup store
  | .subscriptionDeleted sub => handleSubscriptionCancelled now sub store
  | .subscriptionUpdated sub fetched => handleSubscriptionUpdated now sub fetched store
  | .other _ => store

/-- The user id each routine resolves before touching the datastore: session
metadata for checkout events, metadata of the retrieved subscription for
invoice events, subscription metadata for subscription events. -/
def eventUserId : StripeEvent → Option String
  | .checkoutCompleted s _ => s.metaUserId
  | .invoicePaid _ subLookup => subLookup.bind (fun sub => sub.metaUserId)
  | .paymentFailed _ subLookup => subLookup.bind (fun sub => sub.metaUserId)
  | .subscriptionDeleted sub => sub.metaUserId
  | .subscriptionUpdated sub _ => sub.metaUserId
  | .other _ => none

/-- An inbound webhook request as the top-level handler sees it
(deputy-auth.js lines 240-336): method, configuration flags, whether the
signature header is present, the outcome of `stripe.webhooks.constructEvent`
(`verifyOutcome`) and of `JSON.parse(event.body)` (`parseOutcome`), and
whether the dispatched reconciliation routine throws (`routineThrows`) — the
per-case `try`/`catch` blocks swallow such an exception. -/
structure WebhookRequest where
  httpMethod : String := "POST"
  stripeKeyConfigured : Bool := true
  dbInitialized : Bool := true
  secretConfigured : Bool := true
  sigPresent : Bool := true
  verifyOutcome : Except String StripeEvent := .error ""
  parseOutcome : Except String StripeEvent := .error ""
  routineThrows : Bool := false

/-- The HTTP response of the webhook handler: status code, whether the body
carries `received: true`, and the optional `error` field. -/
structure Response where
  statusCode : Nat
  received : Bool := false
  error : Option String := none
  deriving Repr, DecidableEq

/-- The verify-or-decode step (deputy-auth.js lines 262-272): cryptographic
verification runs only when both the endpoint secret and the signature header
are present; otherwise the raw body is parsed without verification. -/
def decodeEvent (req : WebhookRequest) : Except String StripeEvent :=
  if req.secretConfigured = true ∧ req.sigPresent = true then req.verifyOutcome
  else req.parseOutcome

/-- The top-level webhook handler response (deputy-auth.js lines 240-336,
identical in stripe-webhook.js lines 48-144): 405 for non-POST, 200 with an
`error` field when Stripe or Firebase is unconfigured, 400 when the
verify-or-decode step fails, and otherwise 200 `{ received: true }` — the
per-case `try`/`catch` blocks keep a routine exception from reaching the
response, so the result does not depend on `routineThrows`. -/
def webhookHandler (req : WebhookRequest) : Response :=
  if req.httpMethod ≠ "POST" then { statusCode := 405 }
  else if req.stripeKeyConfigured = false then
    { statusCode := 200, received := true, error := some "Stripe not configured" }
  else if req.dbInitialized = false then
    { statusCode := 200, received := true, error := some "Firebase not configured" }
  else
    match decodeEvent req with
    | .error msg => { statusCode := 400, error := some msg }
    | .ok _ => { statusCode := 200, received := true }

/-! ## Helper lemmas -/

theorem updateStore_self (uid : String) (f : UserDoc → UserDoc) (store : Store) :
    (updateStore uid f store) uid = some (f ((store uid).getD {})) := by
  simp [updateStore]

theorem updateStore_other (uid k : String) (f : UserDoc → UserDoc) (store : Store)
    (h : k ≠ uid) : (updateStore uid f store) k = store k := by
  simp [updateStore, h]

/-- The transaction log evolves append-only: one step leaves it unchanged or
appends a single fresh entry. -/
def txnsAppendOnly (oldL newL : List Txn) : Prop :=
  newL = oldL ∨ ∃ t, t ∉ oldL ∧ newL = oldL ++ [t]

theorem txnsAppendOnly_refl (l : List Txn) : txnsAppendOnly l l := Or.inl rfl

theorem txnsAppendOnly_arrayUnion (l : List Txn) (t : Txn) :
    txnsAppendOnly l (arrayUnion l t) := by
  unfold txnsAppendOnly arrayUnion
  by_cases h : t ∈ l
  · rw [if_pos h]; exact Or.inl rfl
  · rw [if_neg h]; exact Or.inr ⟨t, h, rfl⟩

theorem updateStore_txnsAppendOnly (uid : String) (f : UserDoc → UserDoc) (store : Store)
    (k : String) (hf : ∀ d : UserDoc, txnsAppendOnly d.transactions (f d).transactions) :
    txnsAppendOnly ((store k).getD {}).transactions
      (((updateStore uid f store) k).getD {}).transactions := by
  by_cases h : k = uid
  · subst h
    simp only [updateStore, if_pos rfl, Option.getD_some]
    exact hf _
  · simp only [updateStore, if_neg h]
    exact txnsAppendOnly_refl _

/-- One reconciliation step appends exactly the entry `t` to the user `uid`
and touches no other document: the new log is the array-union of the old log
with `t` — so exactly one entry is appended whenever `t` is not already
present, and an exact duplicate appends nothing — and every other key of the
store is left untouched. -/
def appendsExactly (store store2 : Store) (uid : String) (t : Txn) : Prop :=
  ((store2 uid).getD {}).transactions
      = arrayUnion ((store uid).getD {}).transactions t ∧
  (t ∉ ((store uid).getD {}).transactions →
    ((store2 uid).getD {}).transactions
      = ((store uid).getD {}).transactions ++ [t]) ∧
  (∀ k, k ≠ uid → store2 k = store k)

/-- One reconciliation step appends no transaction entry at any key. -/
def txnsUnchanged (store store2 : Store) : Prop :=
  ∀ k, ((store2 k).getD {}).transactions = ((store k).getD {}).transactions

theorem arrayUnion_not_mem (l : List Txn) (t : Txn) (h : t ∉ l) :
    arrayUnion l t = l ++ [t] := by
  unfold arrayUnion
  rw [if_neg h]

theorem appendsExactly_updateStore (uid : String) (f : UserDoc → UserDoc) (store : Store)
    (t : Txn) (hf : ∀ d : UserDoc, (f d).transactions = arrayUnion d.transactions t) :
    appendsExactly store (updateStore uid f store) uid t := by
  refine ⟨?_, ?_, ?_⟩
  · simp [updateStore, hf]
  · intro hm
    simp [updateStore, hf, arrayUnion_not_mem _ _ hm]
  · intro k hk
    exact updateStore_other _ _ _ _ hk

theorem updateStore_txns_eq (uid k : String) (f : UserDoc → UserDoc) (store : Store)
    (hf : ∀ d : UserDoc, (f d).transactions = d.transactions) :
    (((updateStore uid f store) k).getD {}).transactions
      = ((store k).getD {}).transactions := by
  by_cases h : k = uid
  · subst h
    simp [updateStore, hf]
  · simp [updateStore, h]

theorem planSwitchTxn_type (now : Nat) (b : Bool) (currentTier currentCycle : String)
    (tier : Option String) (billingCycle : String) (oldCredits newCredits : Nat) :
    (planSwitchTxn now b currentTier currentCycle tier billingCycle
        oldCredits newCredits).type = "plan_upgrade" ∨
    (planSwitchTxn now b currentTier currentCycle tier billingCycle
        oldCredits newCredits).type = "plan_downgrade" := by
  cases b <;> simp [planSwitchTxn]

/-! ## Claims -/

/-- Claim C2: processing a terminal subscription-deleted event for a user id
resolvable from the subscription metadata sets `reviewCredits = 0`,
`tier = free`, `subscriptionStatus = canceled`, clears the stored
`stripeSubscriptionId` (sets it to `null`, modelled as `none`) and leaves the
stored `stripeCustomerId` — both the copy inside the `credits` map and the
top-level one — unchanged. -/
theorem C2_cancellation_downgrades_to_free (now : Nat) (sub : Subscription)
    (store : Store) (uid : String)
    (hu : sub.metaUserId = some uid) (hv : validUserId (some uid) = true) :
    (((processEvent now (.subscriptionDeleted sub) store) uid).getD {}).credits.reviewCredits
        = some 0 ∧
    (((processEvent now (.subscriptionDeleted sub) store) uid).getD {}).credits.tier
        = some "free" ∧
    (((processEvent now (.subscriptionDeleted sub) store) uid).getD {}).credits.subscriptionStatus
        = some "canceled" ∧
    (((processEvent now (.subscriptionDeleted sub) store) uid).getD {}).credits.stripeSubscriptionId
        = none ∧
    (((processEvent now (.subscriptionDeleted sub) store) uid).getD {}).credits.stripeCustomerId
        = ((store uid).getD {}).credits.stripeCustomerId ∧
    (((processEvent now (.subscriptionDeleted sub) store) uid).getD {}).stripeCustomerId
        = ((store uid).getD {}).stripeCustomerId := by
  simp [processEvent, handleSubscriptionCancelled, hu, hv, updateStore, downgradeToFree]

/-- Claim C2 witness: the cancellation effect at a concrete store holding a
pro/monthly subscriber. -/
theorem C2_witness :
    validUserId (some "user-1") = true ∧
    (((processEvent 7
        (.subscriptionDeleted { id := "sub_9", status := "canceled",
                                metaUserId := some "user-1" })
        (fun k => if k = "user-1" then
          some { stripeCustomerId := some "cus_1",
                 credits := { subscriptionTier := some "pro", tier := some "pro",
                              reviewCredits := some 20, stripeCustomerId := some "cus_1",
                              stripeSubscriptionId := some "sub_9",
                              subscriptionStatus := some "active" } }
          else none)) "user-1").getD {}).credits.subscriptionStatus = some "canceled" := by
  refine ⟨by decide, ?_⟩
  exact (C2_cancellation_downgrades_to_free 7 _ _ "user-1" rfl (by decide)).2.2.1

/-- Claim C9: `addPurchasedCredits` adds exactly the pack size to the stored
`purchasedCredits` (additive merge over the current value, never an
overwrite); two consecutive 1-credit pack purchases therefore increase it by
exactly 2, and the routine changes neither `subscriptionStatus` nor the
tier fields.  The Firestore `runTransaction` read-modify-write is modelled as
the atomic document transformation below. -/
theorem C9_credit_pack_additive (now1 now2 n : Nat) (tid1 tid2 : String)
    (p1 p2 c1 c2 : Option String) (doc : UserDoc) :
    (addPurchasedCredits now1 n tid1 p1 c1 doc).credits.purchasedCredits
        = some (doc.credits.purchasedCredits.getD 0 + n) ∧
    (addPurchasedCredits now2 1 tid2 p2 c2
        (addPurchasedCredits now1 1 tid1 p1 c1 doc)).credits.purchasedCredits
        = some (doc.credits.purchasedCredits.getD 0 + 2) ∧
    (addPurchasedCredits now1 n tid1 p1 c1 doc).credits.subscriptionStatus
        = doc.credits.subscriptionStatus ∧
    (addPurchasedCredits now1 n tid1 p1 c1 doc).credits.tier = doc.credits.tier ∧
    (addPurchasedCredits now1 n tid1 p1 c1 doc).credits.subscriptionTier
        = doc.credits.subscriptionTier := by
  unfold addPurchasedCredits
  by_cases h1 : strTruthy c1 = true <;> by_cases h2 : strTruthy c2 = true <;>
    simp [h1, h2]

/-- Claim C3: replaying the same checkout-completed subscription-activation
event leaves `reviewCredits` at the single-application value at every key of
the store — the activation write overwrites `reviewCredits` with the grant
computed from the event alone, so a duplicate redelivery cannot
double-grant. -/
theorem C3_checkout_replay_idempotent_credits (now1 now2 : Nat) (s : Session)
    (sl : Option Subscription) (store : Store) (k : String)
    (hp : s.metaProductType = some "subscription") :
    (((processEvent now2 (.checkoutCompleted s sl)
        (processEvent now1 (.checkoutCompleted s sl) store)) k).getD {}).credits.reviewCredits
      = (((processEvent now1 (.checkoutCompleted s sl) store) k).getD {}).credits.reviewCredits := by
  by_cases hv : validUserId s.metaUserId = true
  · by_cases hk : k = s.metaUserId.getD ""
    · subst hk
      simp [processEvent, handleCheckoutComplete, hv, hp, updateStore, activateSubscription]
    · simp [processEvent, handleCheckoutComplete, hv, hp, updateStore, hk]
  · simp [processEvent, handleCheckoutComplete, hv]

/-- Claim C3 witness: replaying a concrete pro/annual checkout event yields
the same `reviewCredits` as a single delivery. -/
theorem C3_witness :
    (((processEvent 2 (.checkoutCompleted
        { id := "cs_1", customer := some "cus_2", subscription := some "sub_2",
          metaUserId := some "user-2", metaProductType := some "subscription",
          metaTier := some "pro", metaProductKey := some "pro_annual" }
        none)
        (processEvent 1 (.checkoutCompleted
        { id := "cs_1", customer := some "cus_2", subscription := some "sub_2",
          metaUserId := some "user-2", metaProductType := some "subscription",
          metaTier := some "pro", metaProductKey := some "pro_annual" }
        none)
        (fun _ => none))) "user-2").getD {}).credits.reviewCredits
      = (((processEvent 1 (.checkoutCompleted
        { id := "cs_1", customer := some "cus_2", subscription := some "sub_2",
          metaUserId := some "user-2", metaProductType := some "subscription",
          metaTier := some "pro", metaProductKey := some "pro_annual" }
        none)
        (fun _ => none)) "user-2").getD {}).credits.reviewCredits :=
  C3_checkout_replay_idempotent_credits 1 2 _ none _ "user-2" rfl

/-- Claim C10: when a webhook secret is configured but the inbound request
carries no signature header, the handler does not reject the request — the
verify-or-decode step falls back to plain `JSON.parse` of the raw body
(ignoring the verification outcome entirely) and the parsed event is
dispatched normally with a 200 response. -/
theorem C10_unsigned_request_processed (req : WebhookRequest) (ev : StripeEvent)
    (hm : req.httpMethod = "POST") (hs : req.stripeKeyConfigured = true)
    (hd : req.dbInitialized = true) (_hsec : req.secretConfigured = true)
    (hsig : req.sigPresent = false) (hp : req.parseOutcome = Except.ok ev) :
    decodeEvent req = req.parseOutcome ∧
    decodeEvent req = Except.ok ev ∧
    webhookHandler req = { statusCode := 200, received := true, error := none } := by
  have hdec : decodeEvent req = req.parseOutcome := by simp [decodeEvent, hsig]
  refine ⟨hdec, by rw [hdec, hp], ?_⟩
  simp [webhookHandler, hm, hs, hd, hdec, hp]

/-- Claim C10 witness: a fully configured production request without a
signature header and with a decodable body is answered 200. -/
theorem C10_witness :
    webhookHandler { httpMethod := "POST", stripeKeyConfigured := true, dbInitialized := true,
                     secretConfigured := true, sigPresent := false,
                     verifyOutcome := Except.error "no header",
                     parseOutcome := Except.ok (StripeEvent.other "ping"),
                     routineThrows := false }
      = { statusCode := 200, received := true, error := none } :=
  (C10_unsigned_request_processed _ (StripeEvent.other "ping") rfl rfl rfl rfl rfl rfl).2.2

/-- Claim C6 counterexample: a request with the secret configured but no
signature header and a malformed (non-JSON) body is answered 400 even though
signature verification never ran — refuting the claim that a 400 is returned
only when signature verification of the payload fails. -/
theorem C6_counterexample :
    webhookHandler { httpMethod := "POST", stripeKeyConfigured := true, dbInitialized := true,
                     secretConfigured := true, sigPresent := false,
                     verifyOutcome := Except.ok (StripeEvent.other "unused"),
                     parseOutcome := Except.error "Unexpected token",
                     routineThrows := false }
      = { statusCode := 400, received := false, error := some "Unexpected token" } ∧
    ({ httpMethod := "POST", stripeKeyConfigured := true, dbInitialized := true,
       secretConfigured := true, sigPresent := false,
       verifyOutcome := Except.ok (StripeEvent.other "unused"),
       parseOutcome := Except.error "Unexpected token",
       routineThrows := false } : WebhookRequest).sigPresent = false :=
  ⟨rfl, rfl⟩

/-- Claim C6 (amended): for every decoded inbound event the response is 200
`{ received: true }`, and it does not depend on whether the dispatched
routine throws (the per-case catch confines routine errors); a 400 response
arises exactly when the verify-or-decode step fails — signature verification
failing when both secret and header are present, or JSON parsing of the raw
body failing otherwise. -/
theorem C6_amended_response_contract (req : WebhookRequest) (ev : StripeEvent) (b : Bool)
    (hm : req.httpMethod = "POST") (hs : req.stripeKeyConfigured = true)
    (hd : req.dbInitialized = true) (hok : decodeEvent req = Except.ok ev) :
    webhookHandler req = { statusCode := 200, received := true, error := none } ∧
    webhookHandler { req with routineThrows := b } = webhookHandler req ∧
    (∀ r : WebhookRequest, (webhookHandler r).statusCode = 400 →
      r.httpMethod = "POST" ∧ r.stripeKeyConfigured = true ∧ r.dbInitialized = true ∧
      ∃ msg, decodeEvent r = Except.error msg) := by
  refine ⟨by simp [webhookHandler, hm, hs, hd, hok], by cases req; rfl, ?_⟩
  intro r h400
  by_cases hm2 : r.httpMethod = "POST"
  · by_cases hk : r.stripeKeyConfigured = true
    · by_cases hdb : r.dbInitialized = true
      · refine ⟨hm2, hk, hdb, ?_⟩
        cases hdec : decodeEvent r with
        | error msg => exact ⟨msg, rfl⟩
        | ok e => simp [webhookHandler, hm2, hk, hdb, hdec] at h400
      · rw [Bool.not_eq_true] at hdb
        simp [webhookHandler, hm2, hk, hdb] at h400
    · rw [Bool.not_eq_true] at hk
      simp [webhookHandler, hm2, hk] at h400
  · simp [webhookHandler, hm2] at h400

/-- Claim C6 witness: a decoded event in degraded (no-secret) mode is
answered 200 even with a throwing routine flagged. -/
theorem C6_witness :
    webhookHandler { httpMethod := "POST", stripeKeyConfigured := true, dbInitialized := true,
                     secretConfigured := false, sigPresent := false,
                     verifyOutcome := Except.error "unused",
                     parseOutcome := Except.ok (StripeEvent.other "invoice.created"),
                     routineThrows := true }
      = { statusCode := 200, received := true, error := none } :=
  (C6_amended_response_contract
    { httpMethod := "POST", stripeKeyConfigured := true, dbInitialized := true,
      secretConfigured := false, sigPresent := false,
      verifyOutcome := Except.error "unused",
      parseOutcome := Except.ok (StripeEvent.other "invoice.created"),
      routineThrows := true }
    (StripeEvent.other "invoice.created") true rfl rfl rfl rfl).1

/-- Claim C7: an inbound event whose resolved metadata user id is absent,
empty, or the anonymous sentinel produces no datastore write — the store is
unchanged at every key — and the handler still answers 200
`{ received: true }`. -/
theorem C7_invalid_user_is_silent_noop (now : Nat) (ev : StripeEvent) (store : Store)
    (req : WebhookRequest)
    (hinv : validUserId (eventUserId ev) = false)
    (hm : req.httpMethod = "POST") (hs : req.stripeKeyConfigured = true)
    (hd : req.dbInitialized = true) (hok : decodeEvent req = Except.ok ev) :
    processEvent now ev store = store ∧
    webhookHandler req = { statusCode := 200, received := true, error := none } := by
  refine ⟨?_, by simp [webhookHandler, hm, hs, hd, hok]⟩
  cases ev with
  | checkoutCompleted s sl =>
    simp only [eventUserId] at hinv
    simp [processEvent, handleCheckoutComplete, hinv]
  | invoicePaid inv sl =>
    cases sl with
    | none => simp [processEvent, handleInvoicePaid]
    | some sub =>
      simp only [eventUserId, Option.some_bind] at hinv
      simp [processEvent, handleInvoicePaid, hinv]
  | paymentFailed inv sl =>
    cases sl with
    | none => simp [processEvent, handlePaymentFailed]
    | some sub =>
      simp only [eventUserId, Option.some_bind] at hinv
      simp [processEvent, handlePaymentFailed, hinv]
  | subscriptionDeleted sub =>
    simp only [eventUserId] at hinv
    simp [processEvent, handleSubscriptionCancelled, hinv]
  | subscriptionUpdated sub p =>
    simp only [eventUserId] at hinv
    simp [processEvent, handleSubscriptionUpdated, hinv]
  | other t => rfl

/-- Claim C7 witness: a subscription-deleted event for the anonymous sentinel
leaves an empty store untouched and is answered 200. -/
theorem C7_witness :
    processEvent 3
      (.subscriptionDeleted { id := "sub_x", status := "canceled",
                              metaUserId := some "anonymous" })
      (fun _ => none) = (fun _ => none) ∧
    webhookHandler { httpMethod := "POST", stripeKeyConfigured := true, dbInitialized := true,
                     secretConfigured := false, sigPresent := true,
                     verifyOutcome := Except.error "unused",
                     parseOutcome := Except.ok (.subscriptionDeleted
                       { id := "sub_x", status := "canceled",
                         metaUserId := some "anonymous" }),
                     routineThrows := false }
      = { statusCode := 200, received := true, error := none } :=
  C7_invalid_user_is_silent_noop 3 _ _ _ (by decide) rfl rfl rfl rfl

/-- Claim C5: for a subscription whose metadata resolves a valid user id, an
invoice payment-failed event marks the user `past_due`, and a subsequent
invoice-paid renewal event (billing reason not `subscription_create`) for the
same subscription sets the status back to `active`, overwrites
`reviewCredits` with the grant recomputed from the subscription's current
tier and billing cycle (`renewalCredits`), and resets `reviewCreditsUsed` to
0.  The hypothesis `0 < renewalCredits sub` says the subscription's tier is a
paid tier — the source applies the renewal write only when the computed
grant is positive. -/
theorem C5_payment_failed_then_renewal (now1 now2 : Nat) (inv1 inv2 : Invoice)
    (sub : Subscription) (store : Store) (uid : String)
    (hu : sub.metaUserId = some uid) (hv : validUserId (some uid) = true)
    (h1 : strTruthy inv1.subscriptionId = true)
    (h2r : inv2.billing_reason ≠ some "subscription_create")
    (h2s : strTruthy inv2.subscriptionId = true)
    (hgrant : 0 < renewalCredits sub) :
    (((processEvent now1 (.paymentFailed inv1 (some sub)) store) uid).getD {}).credits.subscriptionStatus
        = some "past_due" ∧
    (((processEvent now2 (.invoicePaid inv2 (some sub))
        (processEvent now1 (.paymentFailed inv1 (some sub)) store)) uid).getD {}).credits.subscriptionStatus
        = some "active" ∧
    (((processEvent now2 (.invoicePaid inv2 (some sub))
        (processEvent now1 (.paymentFailed inv1 (some sub)) store)) uid).getD {}).credits.reviewCredits
        = some (renewalCredits sub) ∧
    (((processEvent now2 (.invoicePaid inv2 (some sub))
        (processEvent now1 (.paymentFailed inv1 (some sub)) store)) uid).getD {}).credits.reviewCreditsUsed
        = some 0 := by
  refine ⟨?_, ?_, ?_, ?_⟩ <;>
    simp [processEvent, handlePaymentFailed, handleInvoicePaid, addSubscriptionCredits,
      h1, h2r, h2s, hu, hv, hgrant, updateStore]

/-- Claim C5 witness: a concrete pro/monthly subscription goes past_due on
payment failure and returns to active with 20 credits on the next renewal
invoice. -/
theorem C5_witness :
    0 < renewalCredits { id := "sub_5", status := "past_due",
                         metaUserId := some "user-5", metaTier := some "pro",
                         metaBillingCycle := some "monthly" } ∧
    (((processEvent 11 (.invoicePaid
        { id := "in_2", billing_reason := some "subscription_cycle",
          subscriptionId := some "sub_5" }
        (some { id := "sub_5", status := "past_due",
                metaUserId := some "user-5", metaTier := some "pro",
                metaBillingCycle := some "monthly" }))
        (processEvent 10 (.paymentFailed
        { id := "in_1", billing_reason := some "subscription_cycle",
          subscriptionId := some "sub_5" }
        (some { id := "sub_5", status := "past_due",
                metaUserId := some "user-5", metaTier := some "pro",
                metaBillingCycle := some "monthly" }))
        (fun _ => none))) "user-5").getD {}).credits.reviewCredits = some 20 := by
  refine ⟨by decide, ?_⟩
  exact (C5_payment_failed_then_renewal 10 11
    { id := "in_1", billing_reason := some "subscription_cycle",
      subscriptionId := some "sub_5" }
    { id := "in_2", billing_reason := some "subscription_cycle",
      subscriptionId := some "sub_5" }
    { id := "sub_5", status := "past_due",
      metaUserId := some "user-5", metaTier := some "pro",
      metaBillingCycle := some "monthly" }
    (fun _ => none) "user-5" rfl (by decide) rfl (by decide) rfl (by decide)).2.2.1

/-- Claim C1: a subscription-updated event with status `active`, not
scheduled for cancellation, whose resolved price corresponds to
business/annual, applied to a stored entitlement on pro/monthly (a 20-credit
plan), sets `tier = business` (both tier fields), `billingCycle = annual`,
`reviewCredits = 600`, `reviewCreditsUsed = 0`, and appends exactly one
`plan_upgrade` transaction with `oldCredits = 20` and `newCredits = 600` —
the direction comes from comparing the old and new credit totals
(600 > 20). -/
theorem C1_pro_monthly_to_business_annual (now : Nat) (sub : Subscription)
    (fetched : Option Price) (store : Store) (doc : UserDoc) (uid : String)
    (hu : sub.metaUserId = some uid) (hv : validUserId (some uid) = true)
    (hstat : sub.status = "active") (hcape : sub.cancel_at_period_end = false)
    (hres : resolvePlan sub.metaTier (jsOr sub.metaBillingCycle "monthly") fetched
      = (some "business", "annual"))
    (hdoc : store uid = some doc)
    (htier : currentTierOf doc.credits = "pro")
    (hcycle : currentCycleOf doc.credits = "monthly")
    (hfresh : planSwitchTxn now true "pro" "monthly" (some "business") "annual" 20 600
      ∉ doc.transactions) :
    (((handleSubscriptionUpdated now sub fetched store) uid).getD {}).credits.tier
        = some "business" ∧
    (((handleSubscriptionUpdated now sub fetched store) uid).getD {}).credits.subscriptionTier
        = some "business" ∧
    (((handleSubscriptionUpdated now sub fetched store) uid).getD {}).credits.billingCycle
        = some "annual" ∧
    (((handleSubscriptionUpdated now sub fetched store) uid).getD {}).credits.reviewCredits
        = some 600 ∧
    (((handleSubscriptionUpdated now sub fetched store) uid).getD {}).credits.reviewCreditsUsed
        = some 0 ∧
    (((handleSubscriptionUpdated now sub fetched store) uid).getD {}).transactions
        = doc.transactions
          ++ [planSwitchTxn now true "pro" "monthly" (some "business") "annual" 20 600] := by
  have harr : arrayUnion doc.transactions
      (planSwitchTxn now true "pro" "monthly" (some "business") "annual" 20 600)
      = doc.transactions
        ++ [planSwitchTxn now true "pro" "monthly" (some "business") "annual" 20 600] := by
    unfold arrayUnion
    rw [if_neg hfresh]
  simp [handleSubscriptionUpdated, planSwitchGuard, hu, hv, hstat, hcape, hres, hdoc,
    htier, hcycle, updateStore, lookupTierOpt, lookupTierS, TIER_CREDITS,
    TIER_CREDITS_ANNUAL, strTruthy, harr]

/-- Claim C1 witness: the concrete scenario with a stored pro/monthly record
and an updated subscription whose fetched price is the known business/annual
price point (89900 cents yearly). -/
theorem C1_witness :
    (((handleSubscriptionUpdated 21
        { id := "sub_1", status := "active", cancel_at_period_end := false,
          current_period_end := some 1760000000,
          metaUserId := some "user-9", metaTier := some "pro",
          metaBillingCycle := some "monthly",
          itemPrice := some { id := "price_ba" } }
        (some { id := "price_ba", interval := some "year", unit_amount := some 89900 })
        (fun k => if k = "user-9" then
          some { credits := { subscriptionTier := some "pro", tier := some "pro",
                              billingCycle := some "monthly",
                              reviewCredits := some 20,
                              subscriptionStatus := some "active" } }
          else none)) "user-9").getD {}).credits.reviewCredits = some 600 := by
  exact (C1_pro_monthly_to_business_annual 21 _ _ _
    { credits := { subscriptionTier := some "pro", tier := some "pro",
                   billingCycle := some "monthly",
                   reviewCredits := some 20,
                   subscriptionStatus := some "active" } }
    "user-9" rfl (by decide) rfl rfl (by decide) (by decide) (by decide) (by decide)
    (by decide)).2.2.2.1

/-- A subscription-updated event whose cached metadata carries the given
user, tier and billing cycle; with no fetched price the plan resolves from
this metadata. -/
def planEvent (uid t cycle : String) : Subscription :=
  { id := "sub_plan", status := "active", cancel_at_period_end := false,
    current_period_end := some 1760000000,
    metaUserId := some uid, metaTier := some t, metaBillingCycle := some cycle }

/-- Claim C4: for every paid tier the annual grant is 12 times the monthly
grant — in the webhook credit tables and in the checkout credit table — and
at the handler level: granting (T, monthly) and then processing a
subscription-updated event resolving to (T, annual) leaves
`reviewCredits = 12 × monthly_grant(T)`, while the reverse switch leaves
`reviewCredits = monthly_grant(T)`. -/
theorem C4_annual_is_twelve_times_monthly (t uid : String) (store : Store)
    (now1 now2 : Nat) (cust : Option String) (tid : String) (pe : Option Nat)
    (sid : Option String)
    (ht : t = "starter" ∨ t = "pro" ∨ t = "business")
    (hv : validUserId (some uid) = true) :
    TIER_CREDITS_ANNUAL t = (TIER_CREDITS t).map (fun c => 12 * c) ∧
    REVIEW_CREDIT_AMOUNTS (t ++ "_annual")
      = (REVIEW_CREDIT_AMOUNTS (t ++ "_monthly")).map (fun c => 12 * c) ∧
    (((handleSubscriptionUpdated now2 (planEvent uid t "annual") none
        (updateStore uid
          (activateSubscription now1 (some t) (lookupTierS TIER_CREDITS t) cust tid pe sid
            "monthly") store)) uid).getD {}).credits.reviewCredits
      = some (12 * lookupTierS TIER_CREDITS t) ∧
    (((handleSubscriptionUpdated now2 (planEvent uid t "monthly") none
        (updateStore uid
          (activateSubscription now1 (some t) (lookupTierS TIER_CREDITS_ANNUAL t) cust tid pe
            sid "annual") store)) uid).getD {}).credits.reviewCredits
      = some (lookupTierS TIER_CREDITS t) := by
  rcases ht with rfl | rfl | rfl <;>
    refine ⟨by decide, by decide, ?_, ?_⟩ <;>
      simp [handleSubscriptionUpdated, planSwitchGuard, planEvent, hv, jsOr, resolvePlan,
        detectTier, detectCycle, strTruthy, updateStore, activateSubscription,
        currentTierOf, currentCycleOf, lookupTierOpt, lookupTierS, TIER_CREDITS,
        TIER_CREDITS_ANNUAL]

/-- Claim C4 witness: pro/monthly switched to pro/annual ends with
12 × 20 = 240 review credits. -/
theorem C4_witness :
    (((handleSubscriptionUpdated 31 (planEvent "user-4" "pro" "annual") none
        (updateStore "user-4"
          (activateSubscription 30 (some "pro") (lookupTierS TIER_CREDITS "pro")
            (some "cus_4") "cs_4" none (some "sub_4") "monthly")
          (fun _ => none))) "user-4").getD {}).credits.reviewCredits
      = some (12 * lookupTierS TIER_CREDITS "pro") :=
  (C4_annual_is_twelve_times_monthly "pro" "user-4" (fun _ => none) 30 31 (some "cus_4")
    "cs_4" none (some "sub_4") (Or.inr (Or.inl rfl)) (by decide)).2.2.1

theorem activateSubscription_txnsAppendOnly (now : Nat) (tier : Option String)
    (credits : Nat) (cust : Option String) (tid : String) (pe : Option Nat)
    (sid : Option String) (bc : String) (d : UserDoc) :
    txnsAppendOnly d.transactions
      (activateSubscription now tier credits cust tid pe sid bc d).transactions :=
  txnsAppendOnly_arrayUnion _ _

theorem addSubscriptionCredits_txnsAppendOnly (now credits : Nat) (tid : String)
    (pe : Option Nat) (d : UserDoc) :
    txnsAppendOnly d.transactions
      (addSubscriptionCredits now credits tid pe d).transactions :=
  txnsAppendOnly_arrayUnion _ _

theorem downgradeToFree_txnsAppendOnly (now : Nat) (tid : String) (d : UserDoc) :
    txnsAppendOnly d.transactions (downgradeToFree now tid d).transactions :=
  txnsAppendOnly_arrayUnion _ _

theorem addPurchasedCredits_txnsAppendOnly (now credits : Nat) (tid : String)
    (pname cust : Option String) (d : UserDoc) :
    txnsAppendOnly d.transactions
      (addPurchasedCredits now credits tid pname cust d).transactions := by
  unfold addPurchasedCredits
  by_cases h : strTruthy cust = true <;> simp only [h, if_true, if_false, Bool.false_eq_true,
    reduceIte] <;> exact txnsAppendOnly_arrayUnion _ _

theorem logTransaction_txnsAppendOnly (now : Nat) (ty tid : String)
    (cust : Option String) (d : UserDoc) :
    txnsAppendOnly d.transactions (logTransaction now ty tid cust d).transactions := by
  unfold logTransaction
  by_cases h : strTruthy cust = true <;> simp only [h, if_true, if_false, Bool.false_eq_true,
    reduceIte] <;> exact txnsAppendOnly_arrayUnion _ _

/-- Claim C8 counterexample: an invoice payment-failed event changes the
entitlement record (`subscriptionStatus` moves from `active` to `past_due`)
yet appends no transaction record at all — refuting "every state transition
appends exactly one transaction record before returning success".  The same
holds for the cancellation-scheduled, reactivation and `past_due`/`unpaid`
branches of `handleSubscriptionUpdated`, none of which writes a transaction
entry. -/
theorem C8_counterexample :
    (((processEvent 5
        (.paymentFailed { id := "in_9", subscriptionId := some "sub_9" }
          (some { id := "sub_9", status := "past_due", metaUserId := some "user-8" }))
        (fun k => if k = "user-8" then
          some { credits := { subscriptionStatus := some "active",
                              reviewCredits := some 20 } }
          else none)) "user-8").getD {}).credits.subscriptionStatus = some "past_due" ∧
    (((processEvent 5
        (.paymentFailed { id := "in_9", subscriptionId := some "sub_9" }
          (some { id := "sub_9", status := "past_due", metaUserId := some "user-8" }))
        (fun k => if k = "user-8" then
          some { credits := { subscriptionStatus := some "active",
                              reviewCredits := some 20 } }
          else none)) "user-8").getD {}).transactions = [] := by
  decide

/-- Claim C8 (amended): the transaction log is append-only and the
transitions classify.  Clause 1: no reconciliation routine mutates or removes
existing entries and one event appends at most one fresh entry at any key.
Clauses 2-7: each credit-affecting write — subscription activation, credit
pack, consultation log, renewal, terminal cancellation, plan switch —
performs exactly one array-union append of its audit entry to the resolved
user's log, so exactly one entry is appended whenever that entry is not
already present (an exact duplicate redelivery appends nothing, per
array-union semantics), and no other user's document is touched.  Clauses
8-9: the status-only transitions — payment failed, and every
subscription-updated event outside the plan-switch branch (cancellation
scheduled, reactivation, past_due/unpaid tracking, no-op) — append no entry
at any key. -/
theorem C8_transactions_append_only :
    (∀ (now : Nat) (ev : StripeEvent) (store : Store) (k : String),
      txnsAppendOnly ((store k).getD {}).transactions
        (((processEvent now ev store) k).getD {}).transactions) ∧
    (∀ (now : Nat) (s : Session) (sl : Option Subscription) (store : Store),
      validUserId s.metaUserId = true → s.metaProductType = some "subscription" →
      appendsExactly store (processEvent now (.checkoutCompleted s sl) store)
        (s.metaUserId.getD "")
        { type := "subscription_started", tier := s.metaTier,
          billingCycle := some (checkoutSubInfo s sl).2.2,
          credits := some (if (checkoutSubInfo s sl).2.2 = "annual"
            then lookupTierOpt TIER_CREDITS_ANNUAL s.metaTier
            else lookupTierOpt TIER_CREDITS s.metaTier),
          transactionId := some s.id, timestamp := now }) ∧
    (∀ (now : Nat) (s : Session) (sl : Option Subscription) (store : Store),
      validUserId s.metaUserId = true → s.metaProductType = some "reviewCredits" →
      appendsExactly store (processEvent now (.checkoutCompleted s sl) store)
        (s.metaUserId.getD "")
        { type := "credit_pack", credits := some (s.metaReviewCredits.getD 0),
          product := s.metaProductKey, transactionId := some s.id, timestamp := now }) ∧
    (∀ (now : Nat) (s : Session) (sl : Option Subscription) (store : Store),
      validUserId s.metaUserId = true → s.metaProductType = some "consultation" →
      appendsExactly store (processEvent now (.checkoutCompleted s sl) store)
        (s.metaUserId.getD "")
        { type := "consultation", transactionId := some s.id, timestamp := now }) ∧
    (∀ (now : Nat) (inv : Invoice) (sub : Subscription) (store : Store),
      inv.billing_reason ≠ some "subscription_create" →
      strTruthy inv.subscriptionId = true → validUserId sub.metaUserId = true →
      0 < renewalCredits sub →
      appendsExactly store (processEvent now (.invoicePaid inv (some sub)) store)
        (sub.metaUserId.getD "")
        { type := "subscription_renewal", credits := some (renewalCredits sub),
          transactionId := some inv.id, timestamp := now }) ∧
    (∀ (now : Nat) (sub : Subscription) (store : Store),
      validUserId sub.metaUserId = true →
      appendsExactly store (processEvent now (.subscriptionDeleted sub) store)
        (sub.metaUserId.getD "")
        { type := "subscription_cancelled", transactionId := some sub.id,
          timestamp := now }) ∧
    (∀ (now : Nat) (sub : Subscription) (fetched : Option Price) (store : Store),
      validUserId sub.metaUserId = true →
      planSwitchGuard sub
        (resolvePlan sub.metaTier (jsOr sub.metaBillingCycle "monthly") fetched).1
        (resolvePlan sub.metaTier (jsOr sub.metaBillingCycle "monthly") fetched).2
        ((store (sub.metaUserId.getD "")).getD {}) →
      ∃ t : Txn,
        appendsExactly store (processEvent now (.subscriptionUpdated sub fetched) store)
          (sub.metaUserId.getD "") t ∧
        (t.type = "plan_upgrade" ∨ t.type = "plan_downgrade")) ∧
    (∀ (now : Nat) (inv : Invoice) (sl : Option Subscription) (store : Store),
      txnsUnchanged store (processEvent now (.paymentFailed inv sl) store)) ∧
    (∀ (now : Nat) (sub : Subscription) (fetched : Option Price) (store : Store),
      ¬ planSwitchGuard sub
          (resolvePlan sub.metaTier (jsOr sub.metaBillingCycle "monthly") fetched).1
          (resolvePlan sub.metaTier (jsOr sub.metaBillingCycle "monthly") fetched).2
          ((store (sub.metaUserId.getD "")).getD {}) →
      txnsUnchanged store (processEvent now (.subscriptionUpdated sub fetched) store)) := by
  refine ⟨?_, ?_, ?_, ?_, ?_, ?_, ?_, ?_, ?_⟩
  · intro now ev store k
    cases ev with
    | checkoutCompleted s sl =>
      simp only [processEvent, handleCheckoutComplete]
      split
      · split
        · exact updateStore_txnsAppendOnly _ _ _ _
            (fun d => activateSubscription_txnsAppendOnly _ _ _ _ _ _ _ _ d)
        · split
          · exact updateStore_txnsAppendOnly _ _ _ _
              (fun d => addPurchasedCredits_txnsAppendOnly _ _ _ _ _ d)
          · split
            · exact updateStore_txnsAppendOnly _ _ _ _
                (fun d => logTransaction_txnsAppendOnly _ _ _ _ d)
            · exact txnsAppendOnly_refl _
      · exact txnsAppendOnly_refl _
    | invoicePaid inv sl =>
      simp only [processEvent, handleInvoicePaid]
      split
      · exact txnsAppendOnly_refl _
      · split
        · cases sl with
          | none => exact txnsAppendOnly_refl _
          | some sub =>
            simp only []
            split
            · split
              · exact updateStore_txnsAppendOnly _ _ _ _
                  (fun d => addSubscriptionCredits_txnsAppendOnly _ _ _ _ d)
              · exact txnsAppendOnly_refl _
            · exact txnsAppendOnly_refl _
        · exact txnsAppendOnly_refl _
    | paymentFailed inv sl =>
      simp only [processEvent, handlePaymentFailed]
      split
      · cases sl with
        | none => exact txnsAppendOnly_refl _
        | some sub =>
          simp only []
          split
          · exact updateStore_txnsAppendOnly _ _ _ _ (fun d => txnsAppendOnly_refl _)
          · exact txnsAppendOnly_refl _
      · exact txnsAppendOnly_refl _
    | subscriptionDeleted sub =>
      simp only [processEvent, handleSubscriptionCancelled]
      split
      · exact updateStore_txnsAppendOnly _ _ _ _
          (fun d => downgradeToFree_txnsAppendOnly _ _ d)
      · exact txnsAppendOnly_refl _
    | subscriptionUpdated sub fetched =>
      simp only [processEvent, handleSubscriptionUpdated]
      split
      · split
        · exact updateStore_txnsAppendOnly _ _ _ _ (fun d => txnsAppendOnly_arrayUnion _ _)
        · split
          · exact updateStore_txnsAppendOnly _ _ _ _ (fun d => txnsAppendOnly_refl _)
          · split
            · exact updateStore_txnsAppendOnly _ _ _ _ (fun d => txnsAppendOnly_refl _)
            · split
              · exact updateStore_txnsAppendOnly _ _ _ _ (fun d => txnsAppendOnly_refl _)
              · exact txnsAppendOnly_refl _
      · exact txnsAppendOnly_refl _
    | other t => exact txnsAppendOnly_refl _
  · intro now s sl store hv hp
    simp [processEvent, handleCheckoutComplete, hv, hp]
    exact appendsExactly_updateStore _ _ _ _ (fun d => rfl)
  · intro now s sl store hv hp
    simp [processEvent, handleCheckoutComplete, hv, hp]
    exact appendsExactly_updateStore _ _ _ _ (fun d => by
      unfold addPurchasedCredits
      by_cases h : strTruthy s.customer = true <;> simp [h])
  · intro now s sl store hv hp
    simp [processEvent, handleCheckoutComplete, hv, hp]
    exact appendsExactly_updateStore _ _ _ _ (fun d => by
      unfold logTransaction
      by_cases h : strTruthy s.customer = true <;> simp [h])
  · intro now inv sub store hbr hsid hv hpos
    simp [processEvent, handleInvoicePaid, hbr, hsid, hv, hpos]
    exact appendsExactly_updateStore _ _ _ _ (fun d => rfl)
  · intro now sub store hv
    simp [processEvent, handleSubscriptionCancelled, hv]
    exact appendsExactly_updateStore _ _ _ _ (fun d => rfl)
  · intro now sub fetched store hv hg
    simp [processEvent, handleSubscriptionUpdated, hv, hg]
    exact ⟨_, appendsExactly_updateStore _ _ _ _ (fun d => rfl),
      planSwitchTxn_type _ _ _ _ _ _ _ _⟩
  · intro now inv sl store
    unfold txnsUnchanged
    intro k
    simp only [processEvent, handlePaymentFailed]
    split
    · cases sl with
      | none => rfl
      | some sub =>
        simp only []
        split
        · exact updateStore_txns_eq _ _ _ _ (fun d => rfl)
        · rfl
    · rfl
  · intro now sub fetched store hg
    unfold txnsUnchanged
    intro k
    by_cases hv : validUserId sub.metaUserId = true
    · simp only [processEvent, handleSubscriptionUpdated, hv]
      simp only [if_true, reduceIte]
      rw [if_neg hg]
      split
      · exact updateStore_txns_eq _ _ _ _ (fun d => rfl)
      · split
        · exact updateStore_txns_eq _ _ _ _ (fun d => rfl)
        · split
          · exact updateStore_txns_eq _ _ _ _ (fun d => rfl)
          · rfl
    · simp [processEvent, handleSubscriptionUpdated, hv]

/-- Claim C8 witness: a concrete terminal cancellation for a fresh user
appends exactly the one `subscription_cancelled` entry to the empty log. -/
theorem C8_witness :
    (((processEvent 9 (.subscriptionDeleted { id := "sub_w", status := "canceled",
                                              metaUserId := some "user-w" })
        (fun _ => none)) "user-w").getD {}).transactions
      = [{ type := "subscription_cancelled", transactionId := some "sub_w",
           timestamp := 9 }] := by
  have h := C8_transactions_append_only.2.2.2.2.2.1 9
    { id := "sub_w", status := "canceled", metaUserId := some "user-w" }
    (fun _ => none) (by decide)
  have h2 := h.2.1 (by simp)
  simpa using h2
